import Mathlib

/-!
Shallow embedding of the message-bus core of the repository:

* the channel registry (`createChannel`, `connectToChannel`,
  `sendChannelResult`, the lookup operations and the teardown watchers)
  from the channel API module (`src/unnamed/part_000`);
* the ELIPC transport strategy (`elipc_strategy.ts`): the request-dispatch
  handler installed in the constructor, the deferred/transactional
  acknowledgement machinery (`ackDecoratorDeferred`) and the outbound
  message buffering layer (`bufferedMessageHandler` / `flush` /
  `delayedMessageHandler`).

JavaScript `Map`s keyed by strings are modelled as insertion-ordered
association lists `List (String × _)`; `Map.set` on an existing key updates
the value in place (keeping the original position, as a JS `Map` does),
`Map.delete` removes the entry, iteration (`forEach`) is a fold in list
order.  Values that may be `undefined` in JS are `Option`s; JS template
literals render `undefined` as the string `"undefined"`.  Callback
functions (`ack` / `nack`) are identified by abstract numeric tokens and an
invocation of one is recorded as an explicit effect, so "calls ack exactly
once with v" becomes "the effect list contains exactly one ack-call effect
carrying v".  Wall-clock timestamps (`Date.now()` inside breadcrumbs) are
outside the embedding; every other breadcrumb field is kept.
-/

set_option autoImplicit false

namespace Spec2Proof

/-- Rendering of a string-or-undefined value inside a JS template literal:
`undefined` prints as the string "undefined". -/
def optStr : Option String → String
  | some s => s
  | none => "undefined"

/-- JS truthiness of a string-or-undefined value: `undefined` and the empty
string are falsy. -/
def jsTruthy : Option String → Bool
  | none => false
  | some s => s != ""

/-- JS truthiness of a boolean-or-undefined value. -/
def jsTruthyB : Option Bool → Bool
  | none => false
  | some b => b

/-- Source `{uuid, name}` identity; `name` absent denotes an application-level
identity (`Identity` in shapes.ts). -/
structure Identity where
  uuid : String
  name : Option String
deriving DecidableEq, Repr

/-- The shape returned by the external entity resolver
`getExternalOrOfWindowIdentity` (core_state): the fields of the resolved
owning entity that `createChannel` spreads into the ProviderIdentity. -/
structure ResolvedEntity where
  uuid : String
  name : Option String
  isExternal : Bool
deriving DecidableEq, Repr

/-- Source `ProviderIdentity`: an identity extended with `channelName` and the
derived `channelId`. -/
structure ProviderIdentity where
  uuid : String
  name : Option String
  isExternal : Bool
  channelName : Option String
  channelId : String
deriving DecidableEq, Repr

/-- The `{uuid, name}` part of a ProviderIdentity, as used when the full
object is passed to `sendToIdentity` (which routes by uuid/name). -/
def ProviderIdentity.toIdentity (p : ProviderIdentity) : Identity :=
  { uuid := p.uuid, name := p.name }

/-! ### JS `Map` as an insertion-ordered association list -/

/-- Source `Map.get`: the value stored under the key, if any. -/
def mapGet {α : Type} (m : List (String × α)) (k : String) : Option α :=
  (m.find? fun kv => kv.1 == k).map (·.2)

/-- Source `Map.set`: update in place when the key is present (a JS `Map` keeps
the original insertion position), append otherwise. -/
def mapSet {α : Type} (m : List (String × α)) (k : String) (v : α) : List (String × α) :=
  if m.any (fun kv => kv.1 == k) then
    m.map fun kv => if kv.1 == k then (k, v) else kv
  else
    m ++ [(k, v)]

/-- Source `Map.delete`: remove the entry stored under the key. -/
def mapDelete {α : Type} (m : List (String × α)) (k : String) : List (String × α) :=
  m.filter fun kv => kv.1 != k

/-! ### Channel registry: keys, events, watchers -/

/-- Source `getAckKey(id, identity)` — the correlation key
`` `${id}-${identity.uuid}-${identity.name}` ``. -/
def getAckKey (id : Nat) (identity : Identity) : String :=
  toString id ++ "-" ++ identity.uuid ++ "-" ++ optStr identity.name

/-- Source `getChannelId(uuid, name, channelName)` — `` `${uuid}/${name}/${channelName}` ``. -/
def getChannelId (uuid : String) (name : Option String) (channelName : Option String) : String :=
  uuid ++ "/" ++ optStr name ++ "/" ++ optStr channelName

/-- Routes of the notification bus (`route.window`, `route.application`,
`route.externalApplication`, `route.channel`). -/
inductive Route where
  | window (type : String) (uuid : String) (name : Option String)
  | application (type : String) (uuid : String)
  | externalApplication (type : String) (uuid : String)
  | channel (type : String)
deriving DecidableEq, Repr

/-- Notifications emitted by the channel registry on the event bus. -/
inductive ChannelEvent where
  | channelConnected (p : ProviderIdentity)
  | channelDisconnected (p : ProviderIdentity)
deriving DecidableEq, Repr

/-- The one-shot watchers armed by `createChannelTeardown`: the main watch
on the owning window's / external application's `closed` route deletes the
channelId and emits `channel-disconnected`; the redundant watch on the
owning application's `closed` route only deletes. -/
inductive Watcher where
  | teardownMain (r : Route) (p : ProviderIdentity)
  | teardownApp (r : Route) (p : ProviderIdentity)
deriving DecidableEq, Repr

/-- The route a watcher listens on. -/
def Watcher.route : Watcher → Route
  | .teardownMain r _ => r
  | .teardownApp r _ => r

/-- The channel map: `channelId → ProviderIdentity`, insertion ordered. -/
abbrev ChannelMap := List (String × ProviderIdentity)

/-- Registry state: the channel map plus the armed one-shot teardown
watchers, in registration order. -/
structure ChannelState where
  channelMap : ChannelMap
  watchers : List Watcher
deriving DecidableEq, Repr

/-- Body of one teardown watcher: delete the channelId from the map and,
for the main watcher, emit `channel-disconnected`. -/
def runWatcher : Watcher → ChannelMap → ChannelMap × List ChannelEvent
  | .teardownMain _ p, m => (mapDelete m p.channelId, [.channelDisconnected p])
  | .teardownApp _ p, m => (mapDelete m p.channelId, [])

/-- Run (and disarm) every one-shot watcher registered for the fired route,
in registration order; watchers for other routes are kept in order. -/
def fireMatching (r : Route) : List Watcher → ChannelMap → ChannelMap × List ChannelEvent × List Watcher
  | [], m => (m, [], [])
  | w :: ws, m =>
    if w.route = r then
      let step := runWatcher w m
      let rest := fireMatching r ws step.1
      (rest.1, step.2 ++ rest.2.1, rest.2.2)
    else
      let rest := fireMatching r ws m
      (rest.1, rest.2.1, w :: rest.2.2)

/-- Source `ofEvents.emit(route)` as observed by the registry's one-shot watchers:
returns the new registry state and the events emitted by the handlers. -/
def fireEvent (st : ChannelState) (r : Route) : ChannelState × List ChannelEvent :=
  let res := fireMatching r st.watchers st.channelMap
  ({ channelMap := res.1, watchers := res.2.2 }, res.2.1)

/-! ### Channel registry: lookups -/

namespace Channel

/-- Source `getChannelByChannelId(channelId)` — plain map lookup. -/
def getChannelByChannelId (m : ChannelMap) (channelId : String) : Option ProviderIdentity :=
  mapGet m channelId

/-- Source `getChannelByIdentity(identity)`: collects every channel owned by the
uuid; a falsy `name` matches all of them, otherwise the channel's name must
equal it (`forEach` in insertion order). -/
def getChannelByIdentity (m : ChannelMap) (identity : Identity) : List ProviderIdentity :=
  m.foldl
    (fun acc kv =>
      if kv.2.uuid == identity.uuid then
        if !(jsTruthy identity.name) then acc ++ [kv.2]
        else if kv.2.name == identity.name then acc ++ [kv.2]
        else acc
      else acc)
    []

/-- Source `getChannelByChannelName(channelName)`: a `forEach` that overwrites the
result on every match, hence it yields the LAST matching channel in
insertion order. -/
def getChannelByChannelName (m : ChannelMap) (channelName : String) : Option ProviderIdentity :=
  m.foldl
    (fun acc kv => if kv.2.channelName == some channelName then some kv.2 else acc)
    none

end Channel

/-! ### createChannel and teardown -/

/-- The registration failure message thrown by `createChannel`. -/
def registrationErrorMessage : String :=
  "Register Failed: Please note that only one channel may be registered per identity per channelName."

/-- The `closed` route the main teardown watcher listens on: for an
external provider the external application's, otherwise the window's. -/
def closedRoute (p : ProviderIdentity) : Route :=
  if p.isExternal then .externalApplication "closed" p.uuid else .window "closed" p.uuid p.name

/-- Source `createChannelTeardown(providerIdentity)`: the two one-shot watchers it
arms (`ofEvents.once`), in registration order. -/
def createChannelTeardown (p : ProviderIdentity) : List Watcher :=
  [.teardownMain (closedRoute p) p, .teardownApp (.application "closed" p.uuid) p]

/-- The ProviderIdentity built by `createChannel` on success:
`{ ...providerApp, channelName, channelId }`. -/
def mkProviderIdentity (app : ResolvedEntity) (channelName : Option String)
    (channelId : String) : ProviderIdentity :=
  { uuid := app.uuid, name := app.name, isExternal := app.isExternal,
    channelName := channelName, channelId := channelId }

/-- Source `createChannel(identity, channelName?)`.  `resolver` abstracts the
external collaborator `getExternalOrOfWindowIdentity`.  Returns the thrown
error or the ProviderIdentity, the registry state after the call, and the
events emitted on the bus (`channel-connected` on success). -/
def createChannel (resolver : Identity → Option ResolvedEntity) (st : ChannelState)
    (identity : Identity) (channelName : Option String) :
    Except String ProviderIdentity × ChannelState × List ChannelEvent :=
  let channelId := getChannelId identity.uuid identity.name channelName
  match resolver identity with
  | none => (.error registrationErrorMessage, st, [])
  | some providerApp =>
    if (Channel.getChannelByChannelId st.channelMap channelId).isSome then
      (.error registrationErrorMessage, st, [])
    else
      let p := mkProviderIdentity providerApp channelName channelId
      (.ok p,
       { channelMap := mapSet st.channelMap channelId p,
         watchers := st.watchers ++ createChannelTeardown p },
       [.channelConnected p])

/-! ### connectToChannel / sendChannelResult

The payload type `α` stands for an arbitrary (truthy) JS value carried in
`payload` fields; `Option α` models a possibly-absent/falsy one. -/

/-- The `AckToSender` envelope built by `createAckToSender`: action
`send-channel-result`, with the correlation data in the payload. -/
structure AckToSender where
  action : String
  correlationId : Nat
  destinationToken : Identity
  payload : ProviderIdentity
  success : Bool
deriving DecidableEq, Repr

/-- Source `createAckToSender(identity, messageId, providerIdentity)`. -/
def createAckToSender (identity : Identity) (messageId : Nat)
    (providerIdentity : ProviderIdentity) : AckToSender :=
  { action := "send-channel-result", correlationId := messageId,
    destinationToken := identity, payload := providerIdentity, success := true }

/-- Messages forwarded through `sendToIdentity` by the registry. -/
inductive WireMessage (α : Type) where
  /-- The `process-channel-connection` message sent by `connectToChannel`. -/
  | processChannelConnection (ackToSender : AckToSender) (providerIdentity : ProviderIdentity)
      (clientIdentity : Identity) (payload : Option α)
deriving DecidableEq, Repr

/-- Argument of a `nack` invocation: a plain string or a thrown-style
`Error` with a message. -/
inductive NackArg where
  | str (s : String)
  | err (s : String)
deriving DecidableEq, Repr

/-- Argument of a resolved `ack`: `{success, data?}` where `data` is
included only when the payload was truthy. -/
structure AckResult (α : Type) where
  success : Bool
  data : Option α
deriving DecidableEq, Repr

/-- Observable effects of a registry operation, in order of occurrence.
`ackCall`/`nackCall` identify the invoked callback by its abstract token. -/
inductive ChannelEffect (α : Type) where
  | send (target : Identity) (msg : WireMessage α)
  | ackCall (ackId : Nat) (r : AckResult α)
  | nackCall (nackId : Nat) (arg : NackArg)
deriving DecidableEq, Repr

/-- A `RemoteAck` entry of the correlation table: the pending `ack` and
`nack` callbacks, named by abstract tokens. -/
structure RemoteAck where
  ackId : Nat
  nackId : Nat
deriving DecidableEq, Repr

/-- The ack-correlation table `remoteAckMap`: `ackKey → RemoteAck`. -/
abbrev RemoteAckMap := List (String × RemoteAck)

/-- The destructured payload of a `connectToChannel` request:
`{ wait, uuid, name, channelName, payload }`. -/
structure ConnectPayload (α : Type) where
  wait : Option Bool
  uuid : Option String
  name : Option String
  channelName : Option String
  payload : Option α
deriving DecidableEq, Repr

/-- The disambiguation nack message when identity resolution is ambiguous:
the nack id is `` `${uuid}/${name}` `` when `name` is truthy, else `uuid`. -/
def ambiguousNackMessage (uuid : String) (name : Option String) : String :=
  let nackId := if jsTruthy name then uuid ++ "/" ++ optStr name else uuid
  "More than one channel found for provider with identity: " ++ nackId
    ++ ", please include a channelName"

/-- Source `connectToChannel(identity, payload, messageId, ack, nack)`: resolve by
`channelName` when truthy, else by `{uuid, name}` identity; on a unique
provider, register the correlation entry and forward the
`process-channel-connection` message; otherwise nack.  Returns the returned
ProviderIdentity (possibly `undefined`), the correlation table after the
call and the effects in order. -/
def connectToChannel {α : Type} (channelMap : ChannelMap) (remoteAckMap : RemoteAckMap)
    (identity : Identity) (payload : ConnectPayload α) (messageId : Nat)
    (ack nack : Nat) :
    Option ProviderIdentity × RemoteAckMap × List (ChannelEffect α) :=
  let byName : Option ProviderIdentity :=
    if jsTruthy payload.channelName then
      Channel.getChannelByChannelName channelMap (optStr payload.channelName)
    else none
  -- No channel found by channel name, use identity
  let step : Option ProviderIdentity × List (ChannelEffect α) :=
    if byName.isNone && jsTruthy payload.uuid then
      let arr := Channel.getChannelByIdentity channelMap
        { uuid := optStr payload.uuid, name := payload.name }
      if arr.length > 1 then
        (none, [.nackCall nack (.str (ambiguousNackMessage (optStr payload.uuid) payload.name))])
      else
        (arr.head?, [])
    else (byName, [])
  match step.1 with
  | some providerIdentity =>
    let ackKey := getAckKey messageId identity
    let ackToSender := createAckToSender identity messageId providerIdentity
    (some providerIdentity,
     mapSet remoteAckMap ackKey { ackId := ack, nackId := nack },
     step.2 ++ [.send providerIdentity.toIdentity
       (.processChannelConnection ackToSender providerIdentity identity payload.payload)])
  | none =>
    -- Do not change this, checking for this in adapter
    (none, remoteAckMap, step.2 ++ [.nackCall nack (.str "internal-nack")])

/-- The destructured payload of a `sendChannelResult` call:
`{ reason, success, destinationToken, correlationId, payload }`. -/
structure ResultPayload (α : Type) where
  reason : Option String
  success : Bool
  destinationToken : Identity
  correlationId : Nat
  payload : Option α
deriving DecidableEq, Repr

/-- The caller-nack message when no correlation entry matches. -/
def orphanResultMessage : String :=
  "Ack failed, initial channel message not found."

/-- Source fallback for the nack reason: the given reason when truthy, else the default channel-provider-error message. -/
def nackReason (reason : Option String) : String :=
  if jsTruthy reason then optStr reason else "Channel provider error"

/-- Source `sendChannelResult(identity, payload, ack, nack)`: look up the
correlation entry by `(correlationId, destinationToken)`; resolve its ack
(success) or nack (failure) and delete the entry; if absent, invoke the
caller's nack.  Returns the table after the call and the effects. -/
def sendChannelResult {α : Type} (remoteAckMap : RemoteAckMap) (identity : Identity)
    (payload : ResultPayload α) (ack nack : Nat) :
    RemoteAckMap × List (ChannelEffect α) :=
  let ackKey := getAckKey payload.correlationId payload.destinationToken
  match mapGet remoteAckMap ackKey with
  | some remoteAck =>
    if payload.success then
      (mapDelete remoteAckMap ackKey,
       [.ackCall remoteAck.ackId { success := true, data := payload.payload }])
    else
      (mapDelete remoteAckMap ackKey,
       [.nackCall remoteAck.nackId (.err (nackReason payload.reason))])
  | none =>
    (remoteAckMap, [.nackCall nack (.str orphanResultMessage)])

/-! ### ELIPC request-dispatch handler (ElipcStrategy constructor) -/

/-- The behaviour of a registered endpoint's `apiFunc` on the dispatched
message: it returns a value, returns `undefined` (legacy handlers that call
`ack` themselves), or throws/rejects. -/
inductive HandlerOutcome (α : Type) where
  | value (v : α)
  | void
  | err (e : String)
deriving DecidableEq, Repr

/-- The fields of the decoded inbound message the dispatch handler reads. -/
structure InboundMessage where
  action : String
  singleFrameOnly : Option Bool
deriving DecidableEq, Repr

/-- The message package handed to the request handler, with the frame
validity check `e.sender.isValidWithFrameConnect(e.frameRoutingId)`
abstracted as a boolean. -/
structure MessagePackageModel where
  strategyName : String
  data : InboundMessage
  frameValid : Bool
deriving DecidableEq, Repr

/-- Observable effects of one pass of the dispatch handler. -/
inductive DispatchEffect (α : Type) where
  /-- Source `next()` — fall through to the next request handler. -/
  | next
  /-- the endpoint's `apiFunc` was invoked for this action. -/
  | handlerRun (action : String)
  /-- Source `ack(new AckPayload(result))` for a returned value. -/
  | ack (v : α)
  /-- Source `nack(err)`. -/
  | nack (msg : String)
deriving DecidableEq, Repr

/-- The nack message of the frame-origin validation gate. -/
def supersededMessage : String :=
  "API access has been superseded by another frame in this window."

/-- The request handler installed in `ElipcStrategy`'s constructor: skip to
`next` for a foreign strategy; drop silently when the action has no map
entry; otherwise run the frame gate and the endpoint, acking a returned
value and nacking a thrown error.  The action map carries each endpoint's
outcome on this message. -/
def handleRequest {α : Type} (bypassLocalFrameConnect : Bool)
    (actionMap : List (String × HandlerOutcome α)) (mp : MessagePackageModel) :
    List (DispatchEffect α) :=
  if mp.strategyName != "ElipcStrategy" then [.next]
  else
    match mapGet actionMap mp.data.action with
    | none => []
    | some outcome =>
      -- `!data.singleFrameOnly === false` holds exactly when
      -- `data.singleFrameOnly` is truthy
      if bypassLocalFrameConnect
          || ((!jsTruthyB mp.data.singleFrameOnly) == false)
          || mp.frameValid then
        match outcome with
        | .value v => [.handlerRun mp.data.action, .ack v]
        | .void => [.handlerRun mp.data.action]
        | .err e => [.handlerRun mp.data.action, .nack e]
      else
        [.nack supersededMessage]

/-! ### Deferred (transactional) acknowledgement (`ackDecoratorDeferred`) -/

/-- A breadcrumb record `{action, messageId, name}` appended at a pipeline
stage (the `time: Date.now()` field is wall-clock and outside the
embedding). -/
structure Breadcrumb where
  action : String
  messageId : Nat
  name : String
deriving DecidableEq, Repr

/-- An `AckMessage` object as filled in by the deferred ack delegate:
correlation id and original action of the sub-message, the ack payload, and
the accumulated breadcrumbs. -/
structure AckObj (α : Type) where
  correlationId : Nat
  originalAction : String
  payload : Option α
  breadcrumbs : List Breadcrumb
deriving DecidableEq, Repr

/-- A sub-message of a transactional batch, as seen by the delegate
returned by `ackDecoratorDeferred`: its action, message id and incoming
breadcrumbs. -/
structure SubMessage where
  action : String
  messageId : Nat
  breadcrumbs : List Breadcrumb
deriving DecidableEq, Repr

/-- The aggregate payload handed to the shared `mainAck` when the batch
completes: `{success: true, data: deferredAcks}`. -/
structure AggregateAck (α : Type) where
  success : Bool
  data : List (AckObj α)
deriving DecidableEq, Repr

/-- The ack object pushed onto `deferredAcks` when one sub-message's ack
fires with `payload`: the delegate's object for that sub-message, with the
`core/ackDelegate` and `core/deferredACK` breadcrumbs appended. -/
def mkDeferredAckObj {α : Type} (c : SubMessage × α) : AckObj α :=
  { correlationId := c.1.messageId,
    originalAction := c.1.action,
    payload := some c.2,
    breadcrumbs := c.1.breadcrumbs
      ++ [{ action := c.1.action, messageId := c.1.messageId, name := "core/ackDelegate" },
          { action := c.1.action, messageId := c.1.messageId, name := "core/deferredACK" }] }

/-- One completion step of the deferred-ack state: push the completed
sub-ack onto `deferredAcks`; when the count reaches `totalAcksExpected`,
invoke the shared `mainAck` once with the aggregate. -/
def deferredStep {α : Type} (total : Nat) (collected : List (AckObj α))
    (c : SubMessage × α) : List (AckObj α) × List (AggregateAck α) :=
  let collected' := collected ++ [mkDeferredAckObj c]
  (collected', if collected'.length = total then [{ success := true, data := collected' }] else [])

/-- Run the deferred-ack machinery over a sequence of sub-message
completions (in completion order), starting from the given collected list,
accumulating the `mainAck` invocations. -/
def runDeferredFrom {α : Type} (total : Nat) (collected : List (AckObj α))
    (outs : List (AggregateAck α)) :
    List (SubMessage × α) → List (AckObj α) × List (AggregateAck α)
  | [] => (collected, outs)
  | c :: cs =>
    let step := deferredStep total collected c
    runDeferredFrom total step.1 (outs ++ step.2) cs

/-- Source `ackDecoratorDeferred` for a batch expecting `total` acks, driven by a
completion sequence from the initial empty `deferredAcks`. -/
def runDeferred {α : Type} (total : Nat) (cs : List (SubMessage × α)) :
    List (AckObj α) × List (AggregateAck α) :=
  runDeferredFrom total [] [] cs

/-! ### Outbound buffering layer (`bufferedMessageHandler`) -/

/-- The routing information returned by
`coreState.getRoutingInfoByUuidFrame`, in the parts `canTrySend` and
`innerSend` consult. -/
structure RoutingInfo where
  browserWindowDestroyed : Bool
  frameRoutingId : Int
  mainFrameRoutingId : Int
deriving DecidableEq, Repr

/-- Source `canTrySend(routingInfo)`: the browser window was located (implied by
the routing info existing), is not destroyed, and the frame routing id is a
number (always, in the embedding). -/
def canTrySend (ri : RoutingInfo) : Bool :=
  !ri.browserWindowDestroyed

/-- One `BufferedMessages` record: the destination identity, frame routing
id, key, and the accumulated serialized payloads in enqueue order. -/
structure BufferEntry where
  identity : Identity
  frameRoutingId : Int
  key : String
  messages : List String
deriving DecidableEq, Repr

/-- State of the buffered message handler: the pending groups keyed by
destination key (JS object with string keys — insertion ordered) and the
`pendingFlush` flag. -/
structure BufferState where
  pendingMessages : List (String × BufferEntry)
  pendingFlush : Bool
deriving DecidableEq, Repr

/-- The initial (empty) buffer state. -/
def emptyBuffer : BufferState := { pendingMessages := [], pendingFlush := false }

/-- Observable transport-level outcomes of the buffering layer. -/
inductive SendEffect where
  /-- the `process-api-batch` message delivered by `innerSend`. -/
  | batchSend (uuid : String) (name : Option String) (frameRoutingId : Int)
      (messages : List String)
  /-- routing info lookup failed; only a debug log is written. -/
  | dropNoRouting (uuid : String) (name : Option String)
  /-- Source `canTrySend` failed; only a debug log is written. -/
  | dropUnreachable (uuid : String) (name : Option String)
deriving DecidableEq, Repr

/-- Source `delayedMessageHandler(bufferedMessages)`: look up routing info for the
entry's identity; drop with a diagnostic if absent or unreachable,
otherwise deliver the accumulated messages as one `process-api-batch`
send. -/
def delayedMessageHandler (routing : String → Option String → Option RoutingInfo)
    (b : BufferEntry) : List SendEffect :=
  match routing b.identity.uuid b.identity.name with
  | none => [.dropNoRouting b.identity.uuid b.identity.name]
  | some ri =>
    if canTrySend ri then
      [.batchSend b.identity.uuid b.identity.name ri.frameRoutingId b.messages]
    else
      [.dropUnreachable b.identity.uuid b.identity.name]

/-- Source `flush()`: for every pending group in key-insertion order, run the
handler on it and clear its message list (the group record persists); reset
`pendingFlush`. -/
def flush (routing : String → Option String → Option RoutingInfo)
    (st : BufferState) : BufferState × List SendEffect :=
  ({ pendingMessages := st.pendingMessages.map fun kv => (kv.1, { kv.2 with messages := [] }),
     pendingFlush := false },
   st.pendingMessages.foldl (fun acc kv => acc ++ delayedMessageHandler routing kv.2) [])

/-- One enqueue request handed to `bufferedMessageHandler.add`. -/
structure AddRequest where
  key : String
  identity : Identity
  frameRoutingId : Int
  payload : String
deriving DecidableEq, Repr

/-- Source `add(key, identity, frameRoutingId, payload)`: when `pendingFlush` is
not set, schedule one more `flush` for the end of the tick (`setImmediate`)
— NOTE the source never sets `pendingFlush` to `true`, it only initializes
it to `false` and resets it in `flush()`, so the guard is always taken;
then append the payload to the group for `key`, creating it if absent.
Returns the new state and the number of flushes scheduled by this call. -/
def bufferAdd (st : BufferState) (req : AddRequest) : BufferState × Nat :=
  let scheduled := if !st.pendingFlush then 1 else 0
  let pm :=
    if st.pendingMessages.any (fun kv => kv.1 == req.key) then
      st.pendingMessages.map fun kv =>
        if kv.1 == req.key then (kv.1, { kv.2 with messages := kv.2.messages ++ [req.payload] })
        else kv
    else
      st.pendingMessages ++
        [(req.key, { identity := req.identity, frameRoutingId := req.frameRoutingId,
                     key := req.key, messages := [req.payload] })]
  ({ pendingMessages := pm, pendingFlush := st.pendingFlush }, scheduled)

/-- Perform a sequence of enqueues within one tick, counting the flushes
scheduled via `setImmediate`. -/
def bufferAddAll (st : BufferState) : List AddRequest → BufferState × Nat
  | [] => (st, 0)
  | r :: rs =>
    let step := bufferAdd st r
    let rest := bufferAddAll step.1 rs
    (rest.1, step.2 + rest.2)

/-- Run `n` scheduled flushes back to back (the `setImmediate` callbacks at
the end of the tick), concatenating their transport effects. -/
def runFlushes (routing : String → Option String → Option RoutingInfo) :
    Nat → BufferState → BufferState × List SendEffect
  | 0, st => (st, [])
  | n + 1, st =>
    let step := flush routing st
    let rest := runFlushes routing n step.1
    (rest.1, step.2 ++ rest.2)

/-- A whole scheduling tick: perform the enqueues, then run every flush
they scheduled; returns the final state and the transport effects. -/
def runTick (routing : String → Option String → Option RoutingInfo)
    (adds : List AddRequest) : BufferState × List SendEffect :=
  let added := bufferAddAll emptyBuffer adds
  runFlushes routing added.2 added.1

/-! ### Concrete instances used in witnesses and counterexamples -/

/-- An entity resolver that resolves every identity to a non-external
entity with the same uuid/name. -/
def exResolver : Identity → Option ResolvedEntity :=
  fun i => some { uuid := i.uuid, name := i.name, isExternal := false }

/-- Example provider `u1/w1` on channel `dup`. -/
def exProviderA : ProviderIdentity :=
  { uuid := "u1", name := some "w1", isExternal := false,
    channelName := some "dup", channelId := "u1/w1/dup" }

/-- Example provider `u1/w2` on channel `dup`, registered after
`exProviderA`. -/
def exProviderB : ProviderIdentity :=
  { uuid := "u1", name := some "w2", isExternal := false,
    channelName := some "dup", channelId := "u1/w2/dup" }

/-- A channel map holding `exProviderA` then `exProviderB`, which share the
channelName `dup`. -/
def exChannelMapDup : ChannelMap :=
  [("u1/w1/dup", exProviderA), ("u1/w2/dup", exProviderB)]

/-- Example provider `u2/w9` on channel `svc`. -/
def exProviderSvc : ProviderIdentity :=
  { uuid := "u2", name := some "w9", isExternal := false,
    channelName := some "svc", channelId := "u2/w9/svc" }

/-- A channel map where exactly one provider has channelName `svc`. -/
def exChannelMapSvc : ChannelMap :=
  [("u1/w1/dup", exProviderA), ("u2/w9/svc", exProviderSvc)]

/-- Example requester identity. -/
def exRequester : Identity := { uuid := "client", name := some "cw" }

/-- Example correlation entry with callback tokens 1 (ack) and 2 (nack). -/
def exAckEntry : RemoteAck := { ackId := 1, nackId := 2 }

/-- Example correlation table holding one entry under the key built from
correlationId 5 and destination `u2/w9`. -/
def exAckMap : RemoteAckMap := [("5-u2-w9", exAckEntry)]

/-- Example successful `sendChannelResult` payload addressed at the entry
of `exAckMap`. -/
def exResultPayload : ResultPayload String :=
  { reason := none, success := true,
    destinationToken := { uuid := "u2", name := some "w9" },
    correlationId := 5, payload := some "ok" }

/-- Example `connectToChannel` payload naming channel `svc`. -/
def exConnectPayloadSvc : ConnectPayload String :=
  { wait := none, uuid := none, name := none, channelName := some "svc", payload := some "hello" }

/-- Example `connectToChannel` payload with no channelName and the uuid
`u1`, which owns two channels in `exChannelMapDup`. -/
def exConnectPayloadAmbig : ConnectPayload String :=
  { wait := none, uuid := some "u1", name := none, channelName := none, payload := none }

/-- A routing lookup that finds every destination reachable with frame
routing id 7. -/
def exRouting : String → Option String → Option RoutingInfo :=
  fun _ _ => some { browserWindowDestroyed := false, frameRoutingId := 7, mainFrameRoutingId := 7 }

/-- An enqueue request for the buffering layer. -/
def mkAdd (key uuid payload : String) : AddRequest :=
  { key := key, identity := { uuid := uuid, name := some "n" },
    frameRoutingId := 7, payload := payload }

/-- The registry state right after registering `exProviderA` in the empty
registry. -/
def exState1 : ChannelState :=
  { channelMap := [("u1/w1/dup", exProviderA)],
    watchers := createChannelTeardown exProviderA }

/-- Example sub-messages of a transactional batch. -/
def exSub1 : SubMessage := { action := "a1", messageId := 10, breadcrumbs := [] }

/-- Second example sub-message. -/
def exSub2 : SubMessage := { action := "a2", messageId := 11, breadcrumbs := [] }

/-! ### Association-list lemmas -/

theorem mapGet_mapDelete_self {α : Type} (m : List (String × α)) (k : String) :
    mapGet (mapDelete m k) k = none := by
  induction m with
  | nil => rfl
  | cons kv rest ih =>
    by_cases h : kv.1 = k
    · simpa [mapDelete, List.filter_cons, h] using ih
    · simp only [mapDelete, mapGet, List.filter_cons, h] at ih ⊢
      simp [h, ih, mapDelete, mapGet]

theorem mapGet_mapSet_self {α : Type} (m : List (String × α)) (k : String) (v : α) :
    mapGet (mapSet m k v) k = some v := by
  induction m with
  | nil => simp [mapSet, mapGet]
  | cons kv rest ih =>
    by_cases h : kv.1 = k
    · simp [mapSet, mapGet, h]
    · by_cases h2 : rest.any (fun kv => kv.1 == k)
      · have : mapSet rest k v = rest.map fun kv => if kv.1 == k then (k, v) else kv := by
          simp [mapSet, h2]
        simp only [mapSet, List.any_cons, h2] at ih ⊢
        simpa [mapGet, h, h2] using ih
      · simp only [mapSet, List.any_cons, h2] at ih ⊢
        simpa [mapGet, h, h2] using ih

theorem filter_eq_singleton_find? {α : Type} (p : α → Bool) (l : List α) (e : α)
    (h : l.filter p = [e]) : l.find? p = some e := by
  induction l with
  | nil => simp at h
  | cons x xs ih =>
    by_cases hx : p x
    · rw [List.filter_cons_of_pos hx] at h
      obtain ⟨rfl, -⟩ := List.cons_eq_cons.mp h
      simp [List.find?_cons_of_pos _ hx]
    · rw [List.filter_cons_of_neg hx] at h
      rw [List.find?_cons_of_neg _ hx]
      exact ih h

/-- The `forEach`-with-overwrite fold of `getChannelByChannelName`
computes the last match: generalized over the accumulator. -/
theorem getChannelByChannelName_foldl (cn : String) (m : ChannelMap)
    (acc : Option ProviderIdentity) :
    m.foldl (fun a kv => if kv.2.channelName == some cn then some kv.2 else a) acc
      = match m.reverse.find? (fun kv => kv.2.channelName == some cn) with
        | some kv => some kv.2
        | none => acc := by
  induction m generalizing acc with
  | nil => rfl
  | cons kv rest ih =>
    simp only [List.foldl_cons, List.reverse_cons, List.find?_append]
    rw [ih]
    cases hfind : rest.reverse.find? (fun kv => kv.2.channelName == some cn) with
    | some x => simp [Option.or]
    | none =>
      by_cases h : (kv.2.channelName == some cn) = true
      · simp [Option.or, h]
      · simp [Option.or, h]

/-! ### Helper lemmas on the deferred-ack machinery -/

theorem runDeferredFrom_under {α : Type} (total : Nat) (cs : List (SubMessage × α)) :
    ∀ (collected : List (AckObj α)) (outs : List (AggregateAck α)),
      collected.length + cs.length < total →
      (runDeferredFrom total collected outs cs).2 = outs := by
  induction cs with
  | nil => intro collected outs _; rfl
  | cons c cs ih =>
    intro collected outs hlt
    simp only [List.length_cons] at hlt
    have hne : ¬((collected ++ [mkDeferredAckObj c]).length = total) := by
      simp only [List.length_append, List.length_cons, List.length_nil]
      omega
    simp only [runDeferredFrom, deferredStep, if_neg hne, List.append_nil]
    exact ih _ _ (by simp only [List.length_append, List.length_cons, List.length_nil]; omega)

theorem runDeferredFrom_complete {α : Type} (total : Nat) (cs : List (SubMessage × α)) :
    ∀ (collected : List (AckObj α)) (outs : List (AggregateAck α)),
      collected.length + cs.length = total → cs ≠ [] →
      (runDeferredFrom total collected outs cs).2
        = outs ++ [{ success := true, data := collected ++ cs.map mkDeferredAckObj }] := by
  induction cs with
  | nil => intro _ _ _ hne; exact absurd rfl hne
  | cons c cs ih =>
    intro collected outs hlen _
    simp only [List.length_cons] at hlen
    by_cases hcs : cs = []
    · subst hcs
      have hq : (collected ++ [mkDeferredAckObj c]).length = total := by
        simp only [List.length_append, List.length_cons, List.length_nil]
        simp only [List.length_nil] at hlen
        omega
      simp [runDeferredFrom, deferredStep, hq]
    · have hpos : 0 < cs.length := List.length_pos.mpr hcs
      have hne : ¬((collected ++ [mkDeferredAckObj c]).length = total) := by
        simp only [List.length_append, List.length_cons, List.length_nil]
        omega
      simp only [runDeferredFrom, deferredStep, if_neg hne, List.append_nil]
      rw [ih _ _ (by simp only [List.length_append, List.length_cons, List.length_nil]; omega) hcs]
      simp

/-! ### Helper lemma on the ambiguous connectToChannel path -/

theorem connectToChannel_ambiguous_run {α : Type} (channelMap : ChannelMap)
    (remoteAckMap : RemoteAckMap) (identity : Identity) (pl : ConnectPayload α)
    (messageId ack nack : Nat)
    (hname : jsTruthy pl.channelName = false ∨
      Channel.getChannelByChannelName channelMap (optStr pl.channelName) = none)
    (huuid : jsTruthy pl.uuid = true)
    (hmany : 1 < (Channel.getChannelByIdentity channelMap
      { uuid := optStr pl.uuid, name := pl.name }).length) :
    connectToChannel channelMap remoteAckMap identity pl messageId ack nack
      = (none, remoteAckMap,
         [.nackCall nack (.str (ambiguousNackMessage (optStr pl.uuid) pl.name)),
          .nackCall nack (.str "internal-nack")]) := by
  have hbyName : (if jsTruthy pl.channelName then
      Channel.getChannelByChannelName channelMap (optStr pl.channelName) else none) = none := by
    rcases hname with h | h
    · simp [h]
    · simp [h]
  simp [connectToChannel, hbyName, huuid, hmany]

/-! ### Claim theorems -/

/-- C1: for every identity and channel name, `createChannel` fails with the
RegistrationError message when the owning entity cannot be resolved or when
a channel already exists for the computed channelId, and in either failure
case the registry state is unchanged and nothing is emitted; on success it
stores the ProviderIdentity under the channelId, arms the teardown watchers
and emits exactly the `channel-connected` notification carrying it, and any
second `createChannel` whose computed channelId is the same fails with the
RegistrationError (leaving the state unchanged) until a teardown removes
the entry. -/
theorem createChannel_spec (resolver : Identity → Option ResolvedEntity)
    (st : ChannelState) (identity : Identity) (channelName : Option String)
    (cid : String) (hcid : cid = getChannelId identity.uuid identity.name channelName) :
    ((resolver identity = none ∨
        (Channel.getChannelByChannelId st.channelMap cid).isSome = true) →
      createChannel resolver st identity channelName
        = (.error registrationErrorMessage, st, [])) ∧
    (∀ app, resolver identity = some app →
      Channel.getChannelByChannelId st.channelMap cid = none →
      createChannel resolver st identity channelName
        = (.ok (mkProviderIdentity app channelName cid),
           { channelMap := mapSet st.channelMap cid (mkProviderIdentity app channelName cid),
             watchers := st.watchers
               ++ createChannelTeardown (mkProviderIdentity app channelName cid) },
           [.channelConnected (mkProviderIdentity app channelName cid)]) ∧
      (∀ (resolver2 : Identity → Option ResolvedEntity) (identity2 : Identity)
          (channelName2 : Option String),
        getChannelId identity2.uuid identity2.name channelName2 = cid →
        createChannel resolver2
            { channelMap := mapSet st.channelMap cid (mkProviderIdentity app channelName cid),
              watchers := st.watchers
                ++ createChannelTeardown (mkProviderIdentity app channelName cid) }
            identity2 channelName2
          = (.error registrationErrorMessage,
             { channelMap := mapSet st.channelMap cid (mkProviderIdentity app channelName cid),
               watchers := st.watchers
                 ++ createChannelTeardown (mkProviderIdentity app channelName cid) },
             []))) := by
  subst hcid
  constructor
  · intro h
    cases hres : resolver identity with
    | none => simp [createChannel, hres]
    | some app =>
      rcases h with h | h
      · rw [hres] at h; cases h
      · simp [createChannel, hres, h]
  · intro app hres hnone
    refine ⟨by simp [createChannel, hres, hnone], ?_⟩
    intro resolver2 identity2 channelName2 hcid2
    cases hres2 : resolver2 identity2 with
    | none => simp [createChannel, hres2]
    | some app2 =>
      have hdup : (Channel.getChannelByChannelId
          (mapSet st.channelMap (getChannelId identity.uuid identity.name channelName)
            (mkProviderIdentity app channelName
              (getChannelId identity.uuid identity.name channelName)))
          (getChannelId identity2.uuid identity2.name channelName2)).isSome = true := by
        rw [hcid2, Channel.getChannelByChannelId, mapGet_mapSet_self]
        rfl
      rw [hcid2] at hdup
      simp [createChannel, hres2, hcid2]
      intro hc
      rw [hc] at hdup
      simp at hdup

/-- C1 witness: a fresh registration of `u1/w1` on channel `dup` in the
empty registry succeeds with the expected stored state and event. -/
theorem createChannel_spec_witness :
    createChannel exResolver { channelMap := [], watchers := [] }
        { uuid := "u1", name := some "w1" } (some "dup")
      = (.ok exProviderA,
         { channelMap := mapSet [] "u1/w1/dup" exProviderA,
           watchers := [] ++ createChannelTeardown exProviderA },
         [.channelConnected exProviderA]) := by
  have h := (createChannel_spec exResolver { channelMap := [], watchers := [] }
      { uuid := "u1", name := some "w1" } (some "dup") "u1/w1/dup" (by decide)).2
      { uuid := "u1", name := some "w1", isExternal := false } rfl rfl
  exact h.1

/-- C2: `sendChannelResult` with `success:true` and a correlation key that
has a matching entry invokes exactly that entry's ack once with
`{success: true, data: payload}` and removes the entry; a subsequent call
whose key is the same — and in general any call whose key has no entry —
invokes the caller's nack with the original-message-not-found error and
leaves the table unchanged. -/
theorem sendChannelResult_spec {α : Type} :
    (∀ (m : RemoteAckMap) (identity : Identity) (pl : ResultPayload α)
       (ackId nackId : Nat) (entry : RemoteAck) (k : String),
       k = getAckKey pl.correlationId pl.destinationToken →
       pl.success = true →
       mapGet m k = some entry →
       sendChannelResult m identity pl ackId nackId
         = (mapDelete m k, [.ackCall entry.ackId { success := true, data := pl.payload }]) ∧
       (∀ (identity2 : Identity) (pl2 : ResultPayload α) (ackId2 nackId2 : Nat),
          getAckKey pl2.correlationId pl2.destinationToken = k →
          sendChannelResult (mapDelete m k) identity2 pl2 ackId2 nackId2
            = (mapDelete m k, [.nackCall nackId2 (.str orphanResultMessage)]))) ∧
    (∀ (m : RemoteAckMap) (identity : Identity) (pl : ResultPayload α)
       (ackId nackId : Nat),
       mapGet m (getAckKey pl.correlationId pl.destinationToken) = none →
       sendChannelResult m identity pl ackId nackId
         = (m, [.nackCall nackId (.str orphanResultMessage)])) := by
  constructor
  · intro m identity pl ackId nackId entry k hk hsuccess hsome
    subst hk
    constructor
    · simp [sendChannelResult, hsome, hsuccess]
    · intro identity2 pl2 ackId2 nackId2 hk2
      have : mapGet (mapDelete m (getAckKey pl.correlationId pl.destinationToken))
          (getAckKey pl2.correlationId pl2.destinationToken) = none := by
        rw [hk2]; exact mapGet_mapDelete_self _ _
      simp [sendChannelResult, this]
  · intro m identity pl ackId nackId hnone
    simp [sendChannelResult, hnone]

/-- C2 witness: on a concrete one-entry table, the first successful result
resolves ack token 1 with the payload and deletes the entry; the repeat
call hits the caller's nack and leaves the table unchanged. -/
theorem sendChannelResult_spec_witness :
    (sendChannelResult exAckMap exRequester exResultPayload 7 8
       = (mapDelete exAckMap "5-u2-w9",
          [.ackCall 1 { success := true, data := some "ok" }]) ∧
     sendChannelResult (mapDelete exAckMap "5-u2-w9") exRequester exResultPayload 9 10
       = (mapDelete exAckMap "5-u2-w9", [.nackCall 10 (.str orphanResultMessage)])) := by
  have h := (sendChannelResult_spec (α := String)).1 exAckMap exRequester exResultPayload
      7 8 exAckEntry "5-u2-w9" (by decide) rfl (by decide)
  exact ⟨h.1, h.2 exRequester exResultPayload 9 10 (by decide)⟩

/-- C8 counterexample: with two providers sharing channelName `dup`, the
first match in registration order is `exProviderA`, yet
`getChannelByChannelName` returns `exProviderB`, the last one. -/
theorem getChannelByChannelName_counterexample :
    (exChannelMapDup.find? fun kv => kv.2.channelName == some "dup")
      = some ("u1/w1/dup", exProviderA) ∧
    Channel.getChannelByChannelName exChannelMapDup "dup" ≠ some exProviderA ∧
    Channel.getChannelByChannelName exChannelMapDup "dup" = some exProviderB := by
  decide

/-- C8 (amended): for every registry state, `getChannelByChannelName`
returns the LAST matching provider in registration order — equivalently the
first match scanning the registrations in reverse — and absent when no
provider has that channelName. -/
theorem getChannelByChannelName_last (m : ChannelMap) (cn : String) :
    Channel.getChannelByChannelName m cn
      = (m.reverse.find? fun kv => kv.2.channelName == some cn).map (fun kv => kv.2) := by
  rw [Channel.getChannelByChannelName, getChannelByChannelName_foldl]
  cases h : m.reverse.find? (fun kv => kv.2.channelName == some cn) <;> simp

/-- C3: a `connectToChannel` call whose channelName matches exactly one
registered provider forwards exactly one `process-channel-connection`
message to that provider's identity and registers exactly one correlation
entry under the key built from the messageId and the requester identity —
the new table is exactly the old one with that entry set, and no other
effect occurs. -/
theorem connectToChannel_unique_name {α : Type} (channelMap : ChannelMap)
    (remoteAckMap : RemoteAckMap) (identity : Identity) (pl : ConnectPayload α)
    (messageId ack nack : Nat) (cn k : String) (p : ProviderIdentity)
    (hcn : pl.channelName = some cn) (hne : cn ≠ "")
    (hfilter : channelMap.filter (fun kv => kv.2.channelName == some cn) = [(k, p)]) :
    connectToChannel channelMap remoteAckMap identity pl messageId ack nack
      = (some p,
         mapSet remoteAckMap (getAckKey messageId identity) { ackId := ack, nackId := nack },
         [.send p.toIdentity
            (.processChannelConnection (createAckToSender identity messageId p) p identity
              pl.payload)]) := by
  have hrev : channelMap.reverse.filter (fun kv => kv.2.channelName == some cn) = [(k, p)] := by
    rw [List.filter_reverse, hfilter]; rfl
  have hname : Channel.getChannelByChannelName channelMap cn = some p := by
    rw [Channel.getChannelByChannelName, getChannelByChannelName_foldl,
      filter_eq_singleton_find? _ _ _ hrev]
  simp [connectToChannel, hcn, jsTruthy, hne, optStr, hname]

/-- C3 witness: connecting by name `svc` against a registry where exactly
one provider carries it forwards one connection message to `u2/w9` and
sets the single correlation entry under `42-client-cw`. -/
theorem connectToChannel_unique_name_witness :
    connectToChannel exChannelMapSvc [] exRequester exConnectPayloadSvc 42 3 4
      = (some exProviderSvc,
         mapSet [] (getAckKey 42 exRequester) { ackId := 3, nackId := 4 },
         [.send exProviderSvc.toIdentity
            (.processChannelConnection (createAckToSender exRequester 42 exProviderSvc)
              exProviderSvc exRequester (some "hello"))]) :=
  connectToChannel_unique_name exChannelMapSvc [] exRequester exConnectPayloadSvc
    42 3 4 "svc" "u2/w9/svc" exProviderSvc rfl (by decide) (by decide)

/-- C4: a `connectToChannel` call that reaches identity-based resolution
(no usable channelName match) and finds two or more providers for the
identity forwards no connection message, registers no correlation entry,
and invokes the caller's nack with the disambiguation message naming the
ambiguous provider identity. -/
theorem connectToChannel_ambiguous_spec {α : Type} (channelMap : ChannelMap)
    (remoteAckMap : RemoteAckMap) (identity : Identity) (pl : ConnectPayload α)
    (messageId ack nack : Nat)
    (hname : jsTruthy pl.channelName = false ∨
      Channel.getChannelByChannelName channelMap (optStr pl.channelName) = none)
    (huuid : jsTruthy pl.uuid = true)
    (hmany : 1 < (Channel.getChannelByIdentity channelMap
      { uuid := optStr pl.uuid, name := pl.name }).length) :
    (connectToChannel channelMap remoteAckMap identity pl messageId ack nack).2.1
        = remoteAckMap ∧
    (∀ (target : Identity) (msg : WireMessage α),
      ChannelEffect.send target msg
        ∉ (connectToChannel channelMap remoteAckMap identity pl messageId ack nack).2.2) ∧
    ChannelEffect.nackCall nack (.str (ambiguousNackMessage (optStr pl.uuid) pl.name))
      ∈ (connectToChannel channelMap remoteAckMap identity pl messageId ack nack).2.2 := by
  rw [connectToChannel_ambiguous_run channelMap remoteAckMap identity pl messageId ack nack
    hname huuid hmany]
  refine ⟨rfl, ?_, ?_⟩
  · intro target msg h
    simp at h
  · simp

/-- C4 witness: uuid `u1` owns the two `dup` channels, so an identity-only
connect yields the disambiguation nack, no send and an unchanged table. -/
theorem connectToChannel_ambiguous_spec_witness :
    ((connectToChannel exChannelMapDup [] exRequester exConnectPayloadAmbig 42 3 4).2.1 = [] ∧
     (∀ (target : Identity) (msg : WireMessage String),
       ChannelEffect.send target msg
         ∉ (connectToChannel exChannelMapDup [] exRequester exConnectPayloadAmbig 42 3 4).2.2) ∧
     ChannelEffect.nackCall 4
         (.str (ambiguousNackMessage (optStr exConnectPayloadAmbig.uuid) exConnectPayloadAmbig.name))
       ∈ (connectToChannel exChannelMapDup [] exRequester exConnectPayloadAmbig 42 3 4).2.2) :=
  connectToChannel_ambiguous_spec exChannelMapDup [] exRequester exConnectPayloadAmbig
    42 3 4 (Or.inl (by decide)) (by decide) (by decide)

/-- C10: on that same ambiguous identity path the caller's nack fires twice
within the single call — first with the disambiguation message and then
with the `internal-nack` sentinel — because after the disambiguation nack
the provider stays unresolved and the no-provider branch nacks again. -/
theorem connectToChannel_double_nack {α : Type} (channelMap : ChannelMap)
    (remoteAckMap : RemoteAckMap) (identity : Identity) (pl : ConnectPayload α)
    (messageId ack nack : Nat)
    (hname : jsTruthy pl.channelName = false ∨
      Channel.getChannelByChannelName channelMap (optStr pl.channelName) = none)
    (huuid : jsTruthy pl.uuid = true)
    (hmany : 1 < (Channel.getChannelByIdentity channelMap
      { uuid := optStr pl.uuid, name := pl.name }).length) :
    (connectToChannel channelMap remoteAckMap identity pl messageId ack nack).2.2
      = [.nackCall nack (.str (ambiguousNackMessage (optStr pl.uuid) pl.name)),
         .nackCall nack (.str "internal-nack")] := by
  rw [connectToChannel_ambiguous_run channelMap remoteAckMap identity pl messageId ack nack
    hname huuid hmany]

/-- C10 witness: the concrete ambiguous call performs exactly the two nack
invocations, in order. -/
theorem connectToChannel_double_nack_witness :
    (connectToChannel exChannelMapDup [] exRequester exConnectPayloadAmbig 42 3 4).2.2
      = [ChannelEffect.nackCall 4
           (.str (ambiguousNackMessage (optStr exConnectPayloadAmbig.uuid)
             exConnectPayloadAmbig.name)),
         ChannelEffect.nackCall 4 (.str "internal-nack")] :=
  connectToChannel_double_nack (α := String) exChannelMapDup [] exRequester
    exConnectPayloadAmbig 42 3 4 (Or.inl (by decide)) (by decide) (by decide)

/-- C5: for a transactional batch of N sub-messages, the deferred-ack
machinery emits no aggregate acknowledgement while fewer than N individual
acks have been collected, and after the N-th it has emitted exactly one
aggregate `{success: true, data: ...}` whose data lists the N individual
ack objects in the order the sub-handlers completed — for every completion
order (any permutation of the batch). -/
theorem ackDecoratorDeferred_spec {α : Type} (total : Nat)
    (batch cs : List (SubMessage × α))
    (hperm : List.Perm cs batch) (hlen : batch.length = total) (hpos : 0 < total) :
    (runDeferred total cs).2 = [{ success := true, data := cs.map mkDeferredAckObj }] ∧
    (∀ pre suf, cs = pre ++ suf → suf ≠ [] → (runDeferred total pre).2 = []) := by
  have hcs : cs.length = total := (hperm.length_eq).trans hlen
  constructor
  · have hne : cs ≠ [] := by
      intro h
      rw [h] at hcs
      simp at hcs
      omega
    have h := runDeferredFrom_complete total cs [] [] (by simpa using hcs) hne
    simpa [runDeferred] using h
  · intro pre suf hsplit hsuf
    have hpre : pre.length + suf.length = total := by
      rw [← List.length_append, ← hsplit]; exact hcs
    have hlt : pre.length < total := by
      have : 0 < suf.length := List.length_pos.mpr hsuf
      omega
    exact runDeferredFrom_under total pre [] [] (by simpa using hlt)

/-- C5 witness: a two-message batch completed in swapped order emits no
aggregate after the first completion and exactly one aggregate carrying the
two acks in completion order after the second. -/
theorem ackDecoratorDeferred_spec_witness :
    (runDeferred 2 [(exSub2, "y"), (exSub1, "x")]).2
        = [{ success := true,
             data := [mkDeferredAckObj (exSub2, "y"), mkDeferredAckObj (exSub1, "x")] }] ∧
    (runDeferred 2 [(exSub2, "y")]).2 = [] := by
  have h := ackDecoratorDeferred_spec (α := String) 2
    [(exSub1, "x"), (exSub2, "y")] [(exSub2, "y"), (exSub1, "x")]
    (by decide) (by decide) (by decide)
  exact ⟨h.1, h.2 [(exSub2, "y")] [(exSub1, "x")] rfl (by decide)⟩

/-- C9: an inbound non-transactional message whose action has no entry in
the registered action map is silently dropped by the dispatch handler:
no ack, no nack, no endpoint invocation, not even a fall-through to the
next handler. -/
theorem handleRequest_unregistered {α : Type} (bypassLocalFrameConnect : Bool)
    (actionMap : List (String × HandlerOutcome α)) (mp : MessagePackageModel)
    (hstrat : mp.strategyName = "ElipcStrategy")
    (hact : mapGet actionMap mp.data.action = none) :
    handleRequest bypassLocalFrameConnect actionMap mp = [] := by
  simp [handleRequest, hstrat, hact]

/-- C9 witness: a message for the unregistered action `no-such-action`
produces no effect at all. -/
theorem handleRequest_unregistered_witness :
    handleRequest (α := String) false []
      { strategyName := "ElipcStrategy",
        data := { action := "no-such-action", singleFrameOnly := none },
        frameValid := true }
      = [] :=
  handleRequest_unregistered false []
    { strategyName := "ElipcStrategy",
      data := { action := "no-such-action", singleFrameOnly := none },
      frameValid := true }
    rfl rfl

/-- C7: after a successful `createChannel`, firing the owning entity's
close notification removes the channelId from the registry and emits
exactly one `channel-disconnected` event carrying the ProviderIdentity;
the redundant one-shot watch on the owning application's close route then
removes the (already absent) entry without re-emitting disconnect; and
`getChannelByChannelId` returns absent after either step. -/
theorem createChannelTeardown_spec (resolver : Identity → Option ResolvedEntity)
    (st : ChannelState) (identity : Identity) (channelName : Option String)
    (p : ProviderIdentity) (st1 : ChannelState) (evs : List ChannelEvent)
    (hw : st.watchers = [])
    (hok : createChannel resolver st identity channelName = (.ok p, st1, evs)) :
    (fireEvent st1 (closedRoute p)).2 = [.channelDisconnected p] ∧
    Channel.getChannelByChannelId (fireEvent st1 (closedRoute p)).1.channelMap
      p.channelId = none ∧
    (fireEvent (fireEvent st1 (closedRoute p)).1 (.application "closed" p.uuid)).2 = [] ∧
    Channel.getChannelByChannelId
      (fireEvent (fireEvent st1 (closedRoute p)).1 (.application "closed" p.uuid)).1.channelMap
      p.channelId = none := by
  cases hres : resolver identity with
  | none => simp [createChannel, hres] at hok
  | some app =>
    by_cases hdup : (Channel.getChannelByChannelId st.channelMap
        (getChannelId identity.uuid identity.name channelName)).isSome = true
    · simp [createChannel, hres, hdup] at hok
    · simp only [Bool.not_eq_true] at hdup
      simp only [createChannel, hres, hdup, Bool.false_eq_true, if_false,
        Prod.mk.injEq, Except.ok.injEq] at hok
      obtain ⟨hp, hst1, hevs⟩ := hok
      subst hp
      subst hst1
      generalize mkProviderIdentity app channelName
        (getChannelId identity.uuid identity.name channelName) = q
      have hne2 : ¬(Route.application "closed" q.uuid = closedRoute q) := by
        unfold closedRoute
        split <;> simp
      refine ⟨?_, ?_, ?_, ?_⟩ <;>
        simp [fireEvent, fireMatching, runWatcher, Watcher.route, createChannelTeardown,
          Channel.getChannelByChannelId, mapGet_mapDelete_self, hne2, hw]

/-- C7 witness: registering `u1/w1` on `dup` then closing the window emits
one disconnect and empties the registry; the application-close watch stays
silent. -/
theorem createChannelTeardown_spec_witness :
    ((fireEvent exState1 (closedRoute exProviderA)).2
        = [.channelDisconnected exProviderA] ∧
     Channel.getChannelByChannelId (fireEvent exState1 (closedRoute exProviderA)).1.channelMap
       exProviderA.channelId = none ∧
     (fireEvent (fireEvent exState1 (closedRoute exProviderA)).1
        (.application "closed" exProviderA.uuid)).2 = [] ∧
     Channel.getChannelByChannelId
       (fireEvent (fireEvent exState1 (closedRoute exProviderA)).1
          (.application "closed" exProviderA.uuid)).1.channelMap
       exProviderA.channelId = none) :=
  createChannelTeardown_spec exResolver { channelMap := [], watchers := [] }
    { uuid := "u1", name := some "w1" } (some "dup")
    exProviderA exState1 [.channelConnected exProviderA] rfl rfl

/-- C6 (the code evaluated at the failing input): because `pendingFlush` is
initialized to `false`, reset in `flush()`, and never set to `true`, every
enqueue schedules another end-of-tick flush; three same-destination
enqueues in one tick therefore produce THREE transport sends — the batch
with the three payloads in enqueue order followed by two empty batch
messages — and one enqueue each for two destinations produces FOUR sends,
contradicting the claimed exactly-one / exactly-two sends. -/
theorem bufferedFlush_failing_input :
    (runTick exRouting [mkAdd "k" "u" "a", mkAdd "k" "u" "b", mkAdd "k" "u" "c"]).2
      = [.batchSend "u" (some "n") 7 ["a", "b", "c"],
         .batchSend "u" (some "n") 7 [],
         .batchSend "u" (some "n") 7 []] ∧
    (runTick exRouting [mkAdd "k1" "u" "a", mkAdd "k2" "v" "b"]).2
      = [.batchSend "u" (some "n") 7 ["a"],
         .batchSend "v" (some "n") 7 ["b"],
         .batchSend "u" (some "n") 7 [],
         .batchSend "v" (some "n") 7 []] := by
  decide


end Spec2Proof
